import Mathlib

/-!
# Verification of the torch-ngp dataset-ingestion script

Shallow embedding of `src/main.py` and `src/nerf/provider.py`.

Conventions of the embedding:
* numeric matrix entries are modelled exactly as rationals (`ℚ`); the
  `astype(np.float32)` cast of the source is the identity in this model;
* the filesystem is a value: the set of existing paths, the parsed JSON
  manifest stored at each path, the result of the `*.json` glob, and the
  raw decodable image stored at each path;
* Python exceptions are modelled by the `LoadError` type: the constructor
  names follow the error taxonomy of the specification
  (`configurationError` for the `NotImplementedError` raised when no
  manifest file is found, `dataError` for unusable manifest content and
  for `np.stack` of an empty sequence) together with the raw Python
  exception classes for the remaining failure points
  (`fileNotFoundError` for `open` of a missing file, `valueError` for
  `np.random.choice(frames, 2)` with fewer than two frames,
  `attributeError` for attribute access on a missing attribute);
* an `Image` carries its pixel-array shape, a flag recording the
  BGR→RGB / BGRA→RGBA channel-order conversion, a flag recording whether
  `cv2.resize` was applied, and the path the pixels were decoded from.
-/

/-- Decidable equality of `Except` results, for evaluating the loader on
concrete inputs. -/
instance {ε α : Type _} [DecidableEq ε] [DecidableEq α] : DecidableEq (Except ε α)
  | Except.ok a, Except.ok b =>
    if h : a = b then isTrue (by rw [h]) else isFalse fun hc => h (Except.ok.inj hc)
  | Except.error a, Except.error b =>
    if h : a = b then isTrue (by rw [h]) else isFalse fun hc => h (Except.error.inj hc)
  | Except.ok _, Except.error _ => isFalse fun hc => Except.noConfusion hc
  | Except.error _, Except.ok _ => isFalse fun hc => Except.noConfusion hc

/-- A 4×4 pose matrix (`transform_matrix` in the manifest). -/
abbrev Pose := Fin 4 → Fin 4 → ℚ

/-- A raw decoded image as returned by `cv2.imread`: its array shape. -/
structure RawImage where
  height : Nat
  width : Nat
  channels : Nat
deriving DecidableEq

/-- An in-memory image of the loader, with provenance (`src` is the file
path the pixels were decoded from), the channel-order flag set by the
`cv2.cvtColor` call, and a flag recording whether `cv2.resize` touched it. -/
structure Image where
  height : Nat
  width : Nat
  channels : Nat
  rgbOrder : Bool
  resized : Bool
  src : String
deriving DecidableEq

/-- One `frames` entry of a manifest. -/
structure Frame where
  file_path : String
  transform_matrix : Pose
deriving DecidableEq

/-- A parsed `transforms*.json` document: optional `h`/`w` keys and the
`frames` array.  `json.load` results lacking the `frames` key or not
parsing at all are modelled as absent (see `FileSystem.json`). -/
structure Manifest where
  h : Option Nat
  w : Option Nat
  frames : List Frame
deriving DecidableEq

/-- The two dataset schema variants. -/
inductive Mode where
  | colmap
  | blender
deriving DecidableEq

/-- The failure modes of the loader (see the module docstring). -/
inductive LoadError where
  | configurationError
  | fileNotFoundError
  | dataError
  | valueError
  | attributeError
  | typeError
deriving DecidableEq

/-- The ambient filesystem the loader reads. -/
structure FileSystem where
  /-- paths of the files that exist (`os.path.exists`). -/
  files : List String
  /-- `json.load` of the file at a path; `none` when the content is not a
  well-formed manifest with a `frames` key. -/
  json : String → Option Manifest
  /-- result of `glob.glob(os.path.join(root, '*.json'))`, in
  filesystem-enumeration order. -/
  jsonGlob : List String
  /-- `cv2.imread` of the file at a path; `none` when decoding fails. -/
  image : String → Option RawImage

/-- `os.path.join` as used here: both arguments are relative fragments. -/
def pathJoin (a b : String) : String := a ++ "/" ++ b

/-- Characters of a string after its last `/` (`os.path.basename`). -/
def afterLastSlash (s : List Char) : List Char :=
  s.foldl (fun acc c => if c = '/' then [] else acc ++ [c]) []

/-- `os.path.basename`. -/
def basename (p : String) : String := String.mk (afterLastSlash p.data)

/-- `nerf_matrix_to_ngp` of `provider.py`: the translation column
(rows 0–2 of column 3) becomes `t * scale + offset`; every other entry,
in particular the 3×3 rotation block, is returned unchanged.  The
`astype(np.float32)` cast is the identity on the exact rationals of the
model. -/
def nerf_matrix_to_ngp (pose : Pose) (scale : ℚ) (offset : Fin 3 → ℚ) : Pose :=
  fun i j =>
    if h : i.val < 3 ∧ j.val = 3 then pose i j * scale + offset ⟨i.val, h.1⟩
    else pose i j

/-- Schema detection: `transforms.json` present selects COLMAP mode, else
`transforms_train.json` present selects Blender mode, else the
constructor raises (`NotImplementedError` in the source, the
`ConfigurationError` of the specification's taxonomy). -/
def detectMode (fs : FileSystem) (root : String) : Except LoadError Mode :=
  if pathJoin root "transforms.json" ∈ fs.files then Except.ok Mode.colmap
  else if pathJoin root "transforms_train.json" ∈ fs.files then Except.ok Mode.blender
  else Except.error LoadError.configurationError

/-- `open(p); json.load(f)`: `FileNotFoundError` when the file is absent,
`DataError` (spec taxonomy) when the content is not a usable manifest. -/
def readJson (fs : FileSystem) (p : String) : Except LoadError Manifest :=
  if p ∈ fs.files then
    match fs.json p with
    | some m => Except.ok m
    | none => Except.error LoadError.dataError
  else Except.error LoadError.fileNotFoundError

/-- The manifest filename the Blender branch opens for a selector other
than `all` and `trainval`: the f-string `f"transform_{type}.json"` of
`provider.py` (note: no `s` after `transform`). -/
def blenderManifestFilename (sel : String) : String :=
  "transform_" ++ sel ++ ".json"

/-- `transform['frames'].extend(tmp_transform['frames'])`: keeps the first
document's `h`/`w` keys and appends the second document's frames. -/
def mergeFrames (m t : Manifest) : Manifest :=
  { m with frames := m.frames ++ t.frames }

/-- Manifest assembly (`provider.py` lines 73–99): COLMAP mode reads
`transforms.json`; Blender mode concatenates every globbed `*.json` for
selector `all` (a `None` manifest, when the glob is empty, later raises
`TypeError` at `'h' in transform`), reads train+val for `trainval`, and
otherwise opens `transform_{selector}.json`. -/
def assembleManifest (fs : FileSystem) (root sel : String) : Mode → Except LoadError Manifest
  | Mode.colmap => readJson fs (pathJoin root "transforms.json")
  | Mode.blender =>
    if sel = "all" then
      match fs.jsonGlob with
      | [] => Except.error LoadError.typeError
      | p :: rest => do
        let first ← readJson fs p
        rest.foldlM (fun acc q => do
          let t ← readJson fs q
          pure (mergeFrames acc t)) first
    else if sel = "trainval" then do
      let tr ← readJson fs (pathJoin root "transforms_train.json")
      let va ← readJson fs (pathJoin root "transforms_val.json")
      pure (mergeFrames tr va)
    else
      readJson fs (pathJoin root (blenderManifestFilename sel))

/-- `if 'h' in transform and 'w' in transform` branch: the declared image
size is used only when both keys are present; otherwise both target
dimensions start out `None`. -/
def declaredDims (m : Manifest) : Option Nat × Option Nat :=
  match m.h, m.w with
  | some h, some w => (some h, some w)
  | _, _ => (none, none)

/-- COLMAP train/val split (`provider.py` lines 121–126): `train` drops
the first frame, `val` keeps only the first frame, anything else keeps
all frames; Blender mode never splits here. -/
def splitFrames (mode : Mode) (sel : String) (frames : List Frame) : List Frame :=
  if mode = Mode.colmap then
    if sel = "train" then frames.drop 1
    else if sel = "val" then frames.take 1
    else frames
  else frames

/-- Per-frame image-path resolution: join with the root, and in Blender
mode append `.png` when the basename has no extension. -/
def resolvePath (root : String) (mode : Mode) (fp : String) : String :=
  let p := pathJoin root fp
  if mode = Mode.blender ∧ (afterLastSlash p.data).contains '.' = false then p ++ ".png"
  else p

/-- `cv2.imread` result lifted to the loader's image type: provenance is
the decoded path, no conversion or resize applied yet. -/
def decodeImage (fs : FileSystem) (p : String) : Option Image :=
  (fs.image p).map fun r =>
    { height := r.height, width := r.width, channels := r.channels,
      rgbOrder := false, resized := false, src := p }

/-- The mutable state of the per-frame loop: the (lazily inferred)
target dimensions and the accumulated pose and image lists. -/
structure LoopState where
  H : Option Nat
  W : Option Nat
  poses : List Pose
  images : List Image
deriving DecidableEq

/-- `if self.H is None or self.W is None: self.H, self.W = image.shape`:
the target dimensions for this frame. -/
def targetDims (H W : Option Nat) (img : Image) : Nat × Nat :=
  match H, W with
  | some h, some w => (h, w)
  | _, _ => (img.height, img.width)

/-- The channel-order canonicalization (`cv2.cvtColor`, BGR→RGB for
3-channel images, BGRA→RGBA otherwise): shape-preserving. -/
def cvtColor (img : Image) : Image := { img with rgbOrder := true }

/-- `cv2.resize(image, (W, H))`. -/
def resizeImage (img : Image) (w h : Nat) : Image :=
  { img with width := w, height := h, resized := true }

/-- The processed image appended for one frame: colour conversion, then a
resize exactly when the shape differs from the target dimensions. -/
def processedImage (st : LoopState) (img : Image) : Image :=
  let dims := targetDims st.H st.W img
  if (cvtColor img).height ≠ dims.1 ∨ (cvtColor img).width ≠ dims.2 then
    resizeImage (cvtColor img) dims.2 dims.1
  else cvtColor img

/-- The loop state after successfully processing one frame with decoded
image `img`: target dimensions fixed, normalized pose and processed image
appended. -/
def stepState (scale : ℚ) (offset : Fin 3 → ℚ) (st : LoopState) (f : Frame)
    (img : Image) : LoopState :=
  { H := some (targetDims st.H st.W img).1,
    W := some (targetDims st.H st.W img).2,
    poses := st.poses ++ [nerf_matrix_to_ngp f.transform_matrix scale offset],
    images := st.images ++ [processedImage st img] }

/-- One iteration of the per-frame loop (`provider.py` lines 130–159): a
frame whose resolved image path does not exist is skipped with a warning;
otherwise the pose is normalized and the image decoded (a `None` decode
would raise `AttributeError` at `image.shape`), converted and resized. -/
def processFrame (fs : FileSystem) (root : String) (mode : Mode) (scale : ℚ)
    (offset : Fin 3 → ℚ) (st : LoopState) (f : Frame) : Except LoadError LoopState :=
  let fPath := resolvePath root mode f.file_path
  if fPath ∈ fs.files then
    match decodeImage fs fPath with
    | none => Except.error LoadError.attributeError
    | some img => Except.ok (stepState scale offset st f img)
  else Except.ok st

/-- The frames of a list whose resolved image path exists on disk: exactly
the frames the per-frame loop keeps. -/
def survivingFrames (fs : FileSystem) (root : String) (mode : Mode)
    (frames : List Frame) : List Frame :=
  frames.filter fun f => decide (resolvePath root mode f.file_path ∈ fs.files)

/-- The loaded result: stacked poses and images and the final target
dimensions. -/
structure Dataset where
  poses : List Pose
  images : List Image
  H : Option Nat
  W : Option Nat
deriving DecidableEq

/-- `NeRFDataset.__init__` from the point where `opt` has been read:
schema detection, manifest assembly, declared dimensions, the COLMAP
`test` special case (two random frames are sampled — requiring at least
two frames — and then `np.stack(self.poses)` raises `AttributeError`
because `self.poses` was never assigned on that path), the COLMAP
train/val split, the per-frame loop, and finalization (stacking an empty
pose list raises, `DataError` in the specification's taxonomy). -/
def NeRFDataset.load (fs : FileSystem) (root : String) (scale : ℚ)
    (offset : Fin 3 → ℚ) (sel : String) : Except LoadError Dataset := do
  let mode ← detectMode fs root
  let m ← assembleManifest fs root sel mode
  let dims := declaredDims m
  if mode = Mode.colmap ∧ sel = "test" then
    if m.frames.length < 2 then Except.error LoadError.valueError
    else Except.error LoadError.attributeError
  else
    let frames := splitFrames mode sel m.frames
    let st ← frames.foldlM (processFrame fs root mode scale offset)
      { H := dims.1, W := dims.2, poses := [], images := [] }
    if st.poses = [] then Except.error LoadError.dataError
    else Except.ok { poses := st.poses, images := st.images, H := st.H, W := st.W }

/-- The options object handed to `NeRFDataset.__init__`: attribute access
on a field the caller never set raises `AttributeError`, hence the
`Option` fields. -/
structure Opt where
  path : String
  scale : Option ℚ
  offset : Option (Fin 3 → ℚ)

/-- `NeRFDataset.__init__` including the initial `opt` attribute reads
(`self.scale = opt.scale`, `self.offset = opt.offset`). -/
def NeRFDataset.init (fs : FileSystem) (opt : Opt) (sel : String) :
    Except LoadError Dataset :=
  match opt.scale, opt.offset with
  | some s, some o => NeRFDataset.load fs opt.path s o sel
  | _, _ => Except.error LoadError.attributeError

/-- `main.py`'s argument parser: a single positional `path`; no `scale`
or `offset` argument is declared, so those attributes are absent. -/
def parseArgs (path : String) : Opt :=
  { path := path, scale := none, offset := none }

/-- `main.py`: parse the arguments and construct the dataset with
selector `all`. -/
def mainProgram (fs : FileSystem) (path : String) : Except LoadError Dataset :=
  NeRFDataset.init fs (parseArgs path) "all"

/-- The translation vector of a pose: rows 0–2 of column 3. -/
def translation (p : Pose) (i : Fin 3) : ℚ := p i.castSucc 3

/-- `self.poses[:, :3, 3].norm(dim=-1).mean(0)`: the arithmetic mean of
the per-pose Euclidean norms of the translations. -/
noncomputable def datasetRadius (poses : List Pose) : ℝ :=
  (poses.map fun p =>
    Real.sqrt (((translation p 0 : ℚ) : ℝ) ^ 2 + ((translation p 1 : ℚ) : ℝ) ^ 2
      + ((translation p 2 : ℚ) : ℝ) ^ 2)).sum / (poses.length : ℝ)

/-! ## Concrete fixtures for evaluating the loader -/

/-- The all-zero offset vector. -/
def zeroOffset : Fin 3 → ℚ := fun _ => 0

/-- A camera pose with rotation the identity and translation `(x, y, z)`. -/
def mkPose (x y z : ℚ) : Pose := fun i j =>
  if j = 3 then (if i = 0 then x else if i = 1 then y else if i = 2 then z else 1)
  else if i = j then 1 else 0

/-- A root directory with no manifest file at all. -/
def emptyFs : FileSystem :=
  { files := [], json := fun _ => none, jsonGlob := [], image := fun _ => none }

/-- A root directory holding only `transforms.json` (content unusable). -/
def colmapOnlyFs : FileSystem :=
  { files := ["root/transforms.json"], json := fun _ => none, jsonGlob := [],
    image := fun _ => none }

/-- A root directory holding only `transforms_train.json`. -/
def blenderOnlyFs : FileSystem :=
  { files := ["root/transforms_train.json"],
    json := fun p => if p = "root/transforms_train.json"
      then some { h := none, w := none, frames := [] } else none,
    jsonGlob := ["root/transforms_train.json"], image := fun _ => none }

/-- A one-frame COLMAP manifest whose single image is missing on disk. -/
def c1Manifest : Manifest :=
  { h := none, w := none, frames := [⟨"a.png", mkPose 1 2 3⟩] }

/-- Filesystem for `c1Manifest`: the manifest exists, the image does not. -/
def c1Fs : FileSystem :=
  { files := ["r/transforms.json"],
    json := fun p => if p = "r/transforms.json" then some c1Manifest else none,
    jsonGlob := [], image := fun _ => none }

/-- A three-frame COLMAP manifest. -/
def w1Manifest : Manifest :=
  { h := none, w := none,
    frames := [⟨"a.png", mkPose 1 0 0⟩, ⟨"b.png", mkPose 0 2 0⟩, ⟨"c.png", mkPose 0 0 3⟩] }

/-- Filesystem for `w1Manifest` in which frame `b.png`'s image has been
removed from disk while `a.png` and `c.png` decode as 2×2 RGB images. -/
def w1Fs : FileSystem :=
  { files := ["r/transforms.json", "r/a.png", "r/c.png"],
    json := fun p => if p = "r/transforms.json" then some w1Manifest else none,
    jsonGlob := [],
    image := fun p => if p = "r/a.png" ∨ p = "r/c.png" then some ⟨2, 2, 3⟩ else none }

/-- A COLMAP manifest with an empty `frames` list. -/
def e7Fs : FileSystem :=
  { files := ["r/transforms.json"],
    json := fun p => if p = "r/transforms.json"
      then some { h := none, w := none, frames := [] } else none,
    jsonGlob := [], image := fun _ => none }

/-- A two-frame COLMAP manifest with every image present. -/
def c4Manifest : Manifest :=
  { h := none, w := none,
    frames := [⟨"a.png", mkPose 1 0 0⟩, ⟨"b.png", mkPose 0 2 0⟩] }

/-- Filesystem for `c4Manifest` with both images decodable. -/
def c4Fs : FileSystem :=
  { files := ["r/transforms.json", "r/a.png", "r/b.png"],
    json := fun p => if p = "r/transforms.json" then some c4Manifest else none,
    jsonGlob := [],
    image := fun p => if p = "r/a.png" ∨ p = "r/b.png" then some ⟨2, 2, 3⟩ else none }

/-- A COLMAP manifest declaring both `h` and `w`. -/
def c9aManifest : Manifest :=
  { h := some 5, w := some 6, frames := [⟨"a.png", mkPose 1 0 0⟩] }

/-- Filesystem for `c9aManifest`; the image's native size (2×2) differs
from the declared 5×6. -/
def c9aFs : FileSystem :=
  { files := ["r/transforms.json", "r/a.png"],
    json := fun p => if p = "r/transforms.json" then some c9aManifest else none,
    jsonGlob := [],
    image := fun p => if p = "r/a.png" then some ⟨2, 2, 3⟩ else none }

/-- A COLMAP manifest declaring `h` but not `w`. -/
def c9bManifest : Manifest :=
  { h := some 7, w := none, frames := [⟨"a.png", mkPose 1 0 0⟩] }

/-- Filesystem for `c9bManifest`; the image decodes as a 2×3 RGB image. -/
def c9bFs : FileSystem :=
  { files := ["r/transforms.json", "r/a.png"],
    json := fun p => if p = "r/transforms.json" then some c9bManifest else none,
    jsonGlob := [],
    image := fun p => if p = "r/a.png" then some ⟨2, 3, 3⟩ else none }

/-- A two-frame COLMAP manifest whose translations are `(3,4,0)` and
`(0,0,5)`. -/
def radManifest : Manifest :=
  { h := none, w := none,
    frames := [⟨"a.png", mkPose 3 4 0⟩, ⟨"b.png", mkPose 0 0 5⟩] }

/-- Filesystem for `radManifest` with both images decodable. -/
def radFs : FileSystem :=
  { files := ["root/transforms.json", "root/a.png", "root/b.png"],
    json := fun p => if p = "root/transforms.json" then some radManifest else none,
    jsonGlob := [],
    image := fun p => if p = "root/a.png" ∨ p = "root/b.png" then some ⟨2, 2, 3⟩ else none }

/-- The dataset loaded from `radFs` with `scale = 1`, `offset = 0`,
selector `all`. -/
def radDataset : Dataset :=
  { poses := [nerf_matrix_to_ngp (mkPose 3 4 0) 1 zeroOffset,
              nerf_matrix_to_ngp (mkPose 0 0 5) 1 zeroOffset],
    images := [{ height := 2, width := 2, channels := 3, rgbOrder := true,
                 resized := false, src := "root/a.png" },
               { height := 2, width := 2, channels := 3, rgbOrder := true,
                 resized := false, src := "root/b.png" }],
    H := some 2, W := some 2 }

/-! ## Basic lemmas about the per-frame loop -/

theorem ok_bind {α β : Type} (a : α) (f : α → Except LoadError β) :
    (Except.ok a >>= f : Except LoadError β) = f a := rfl

theorem error_bind {α β : Type} (e : LoadError) (f : α → Except LoadError β) :
    (Except.error e >>= f : Except LoadError β) = Except.error e := rfl

theorem survivingFrames_nil (fs : FileSystem) (root : String) (mode : Mode) :
    survivingFrames fs root mode [] = [] := rfl

theorem survivingFrames_cons_mem {fs : FileSystem} {root : String} {mode : Mode}
    {f : Frame} (rest : List Frame) (h : resolvePath root mode f.file_path ∈ fs.files) :
    survivingFrames fs root mode (f :: rest) = f :: survivingFrames fs root mode rest := by
  simp [survivingFrames, List.filter_cons, h]

theorem survivingFrames_cons_not_mem {fs : FileSystem} {root : String} {mode : Mode}
    {f : Frame} (rest : List Frame) (h : resolvePath root mode f.file_path ∉ fs.files) :
    survivingFrames fs root mode (f :: rest) = survivingFrames fs root mode rest := by
  simp [survivingFrames, List.filter_cons, h]

theorem processFrame_skip {fs : FileSystem} {root : String} {mode : Mode} {f : Frame}
    (scale : ℚ) (offset : Fin 3 → ℚ) (st : LoopState)
    (h : resolvePath root mode f.file_path ∉ fs.files) :
    processFrame fs root mode scale offset st f = Except.ok st := by
  simp [processFrame, h]

theorem processFrame_hit {fs : FileSystem} {root : String} {mode : Mode} {f : Frame}
    {img : Image} (scale : ℚ) (offset : Fin 3 → ℚ) (st : LoopState)
    (h : resolvePath root mode f.file_path ∈ fs.files)
    (himg : decodeImage fs (resolvePath root mode f.file_path) = some img) :
    processFrame fs root mode scale offset st f =
      Except.ok (stepState scale offset st f img) := by
  simp [processFrame, h, himg]

theorem targetDims_of_none_left {H W : Option Nat} (img : Image) (hH : H = none) :
    targetDims H W img = (img.height, img.width) := by
  subst hH; cases W <;> rfl

theorem processedImage_src (st : LoopState) (img : Image) :
    (processedImage st img).src = img.src := by
  simp only [processedImage]
  split <;> rfl

theorem processedImage_of_none {st : LoopState} (img : Image) (hH : st.H = none) :
    processedImage st img = cvtColor img := by
  unfold processedImage
  rw [targetDims_of_none_left img hH]
  simp [cvtColor]

/-- The central invariant of the per-frame loop: when every surviving
frame's image decodes, the fold succeeds; it appends exactly the
normalized poses of the surviving frames, appends one processed image
per surviving frame (paired in order, each decoded from its own frame's
resolved path), keeps already-fixed target dimensions, and in the
lazily-inferred case fixes the dimensions from the first surviving
frame's image, which is stored colour-converted but un-resized. -/
theorem processFrames_spec (fs : FileSystem) (root : String) (mode : Mode) (scale : ℚ)
    (offset : Fin 3 → ℚ) (frames : List Frame) :
    ∀ st : LoopState,
      (∀ f ∈ frames, resolvePath root mode f.file_path ∈ fs.files →
        (fs.image (resolvePath root mode f.file_path)).isSome) →
      ∃ st', List.foldlM (processFrame fs root mode scale offset) st frames = Except.ok st' ∧
        st'.poses = st.poses ++ (survivingFrames fs root mode frames).map
          (fun f => nerf_matrix_to_ngp f.transform_matrix scale offset) ∧
        (∃ imgs, st'.images = st.images ++ imgs ∧
          List.Forall₂ (fun f img => img.src = resolvePath root mode f.file_path)
            (survivingFrames fs root mode frames) imgs) ∧
        (∀ h w, st.H = some h → st.W = some w → st'.H = some h ∧ st'.W = some w) ∧
        (∀ f₀ rest', st.H = none →
          survivingFrames fs root mode frames = f₀ :: rest' →
          ∀ img0, decodeImage fs (resolvePath root mode f₀.file_path) = some img0 →
            st'.H = some img0.height ∧ st'.W = some img0.width ∧
            ∃ tail, st'.images = st.images ++ cvtColor img0 :: tail) := by
  induction frames with
  | nil =>
    intro st _
    exact ⟨st, rfl, by simp [survivingFrames], ⟨[], by simp, by simp [survivingFrames]⟩,
      fun h w hH hW => ⟨hH, hW⟩,
      fun f₀ rest' _ hc => by simp [survivingFrames] at hc⟩
  | cons f rest ih =>
    intro st hdec
    by_cases hf : resolvePath root mode f.file_path ∈ fs.files
    · obtain ⟨raw, hraw⟩ :=
        Option.isSome_iff_exists.mp (hdec f (List.mem_cons_self f rest) hf)
      obtain ⟨img, hdi, hsrc⟩ :
          ∃ img, decodeImage fs (resolvePath root mode f.file_path) = some img ∧
            img.src = resolvePath root mode f.file_path := by
        refine ⟨{ height := raw.height, width := raw.width, channels := raw.channels,
                  rgbOrder := false, resized := false,
                  src := resolvePath root mode f.file_path }, ?_, rfl⟩
        simp [decodeImage, hraw]
      obtain ⟨st', hfold, hposes, ⟨imgs, himgs, hfa⟩, hHW, hinf⟩ :=
        ih (stepState scale offset st f img)
          (fun g hg => hdec g (List.mem_cons_of_mem f hg))
      refine ⟨st', ?_, ?_, ?_, ?_, ?_⟩
      · rw [List.foldlM_cons, processFrame_hit scale offset st hf hdi, ok_bind]
        exact hfold
      · rw [survivingFrames_cons_mem rest hf, hposes]
        simp [stepState, List.append_assoc]
      · refine ⟨processedImage st img :: imgs, ?_, ?_⟩
        · rw [himgs]; simp [stepState, List.append_assoc]
        · rw [survivingFrames_cons_mem rest hf]
          exact List.Forall₂.cons ((processedImage_src st img).trans hsrc) hfa
      · intro h w hH hW
        exact hHW h w (by simp [stepState, targetDims, hH, hW])
          (by simp [stepState, targetDims, hH, hW])
      · intro f₀ rest' hH hsurv img0 hdi0
        rw [survivingFrames_cons_mem rest hf] at hsurv
        injection hsurv with hf0 hrest'
        subst hf0
        rw [hdi] at hdi0
        injection hdi0 with himg0
        obtain ⟨hH', hW'⟩ := hHW img.height img.width
          (by simp [stepState, targetDims_of_none_left img hH])
          (by simp [stepState, targetDims_of_none_left img hH])
        refine ⟨by rw [hH', himg0], by rw [hW', himg0], imgs, ?_⟩
        rw [himgs, ← himg0]
        simp [stepState, processedImage_of_none img hH, List.append_assoc]
    · rw [List.foldlM_cons] at *
      obtain ⟨st', hfold, hposes, himgs, hHW, hinf⟩ :=
        ih st (fun g hg => hdec g (List.mem_cons_of_mem f hg))
      refine ⟨st', ?_, ?_, ?_, hHW, ?_⟩
      · rw [processFrame_skip scale offset st hf, ok_bind]
        exact hfold
      · rw [survivingFrames_cons_not_mem rest hf]
        exact hposes
      · rw [survivingFrames_cons_not_mem rest hf]
        exact himgs
      · intro f₀ rest' hH hsurv
        rw [survivingFrames_cons_not_mem rest hf] at hsurv
        exact hinf f₀ rest' hH hsurv

/-- The loader, after successful schema detection and manifest assembly
and away from the COLMAP `test` special case, is the per-frame fold
followed by finalization. -/
theorem load_eq (fs : FileSystem) (root : String) (scale : ℚ) (offset : Fin 3 → ℚ)
    (sel : String) (mode : Mode) (m : Manifest)
    (hmode : detectMode fs root = Except.ok mode)
    (hman : assembleManifest fs root sel mode = Except.ok m)
    (hnt : ¬(mode = Mode.colmap ∧ sel = "test")) :
    NeRFDataset.load fs root scale offset sel =
      (List.foldlM (processFrame fs root mode scale offset)
        { H := (declaredDims m).1, W := (declaredDims m).2, poses := [], images := [] }
        (splitFrames mode sel m.frames)) >>= fun st =>
        if st.poses = [] then Except.error LoadError.dataError
        else Except.ok { poses := st.poses, images := st.images, H := st.H, W := st.W } := by
  unfold NeRFDataset.load
  rw [hmode, ok_bind, hman, ok_bind, if_neg hnt]

/-- Successful load: with detection and assembly done, the loader away
from the COLMAP `test` path succeeds whenever at least one frame's image
survives, and the resulting dataset consists of exactly the surviving
frames' normalized poses, one processed image per surviving frame
(paired in order), with the declared target dimensions when the manifest
declares both and otherwise the dimensions of the first surviving
frame's decoded image, stored colour-converted and un-resized. -/
theorem load_ok (fs : FileSystem) (root : String) (scale : ℚ) (offset : Fin 3 → ℚ)
    (sel : String) (mode : Mode) (m : Manifest)
    (hmode : detectMode fs root = Except.ok mode)
    (hman : assembleManifest fs root sel mode = Except.ok m)
    (hnt : ¬(mode = Mode.colmap ∧ sel = "test"))
    (hdec : ∀ f ∈ splitFrames mode sel m.frames,
      resolvePath root mode f.file_path ∈ fs.files →
      (fs.image (resolvePath root mode f.file_path)).isSome)
    (hne : survivingFrames fs root mode (splitFrames mode sel m.frames) ≠ []) :
    ∃ d, NeRFDataset.load fs root scale offset sel = Except.ok d ∧
      d.poses = (survivingFrames fs root mode (splitFrames mode sel m.frames)).map
        (fun f => nerf_matrix_to_ngp f.transform_matrix scale offset) ∧
      List.Forall₂ (fun f img => img.src = resolvePath root mode f.file_path)
        (survivingFrames fs root mode (splitFrames mode sel m.frames)) d.images ∧
      (∀ h w, declaredDims m = (some h, some w) → d.H = some h ∧ d.W = some w) ∧
      (∀ f₀ rest', (declaredDims m).1 = none →
        survivingFrames fs root mode (splitFrames mode sel m.frames) = f₀ :: rest' →
        ∀ img0, decodeImage fs (resolvePath root mode f₀.file_path) = some img0 →
          d.H = some img0.height ∧ d.W = some img0.width ∧
          ∃ tail, d.images = cvtColor img0 :: tail) := by
  obtain ⟨st', hfold, hposes, ⟨imgs, himgs, hfa⟩, hHW, hinf⟩ :=
    processFrames_spec fs root mode scale offset (splitFrames mode sel m.frames)
      ⟨(declaredDims m).1, (declaredDims m).2, [], []⟩ hdec
  simp only [List.nil_append] at hposes himgs hinf
  have hne' : st'.poses ≠ [] := by
    rw [hposes]
    intro hc
    exact hne (List.map_eq_nil_iff.mp hc)
  refine ⟨⟨st'.poses, st'.images, st'.H, st'.W⟩, ?_, hposes, ?_, ?_, ?_⟩
  · rw [load_eq fs root scale offset sel mode m hmode hman hnt, hfold, ok_bind, if_neg hne']
  · rw [himgs]
    exact hfa
  · intro h w hd
    exact hHW h w (by rw [hd]) (by rw [hd])
  · intro f₀ rest' h1 hsub img0 hdi0
    exact hinf f₀ rest' h1 hsub img0 hdi0

/-! ## Lemmas about splitting, survival and declared dimensions -/

theorem splitFrames_nil (mode : Mode) (sel : String) :
    splitFrames mode sel [] = [] := by
  unfold splitFrames
  split_ifs <;> rfl

theorem splitFrames_subset (mode : Mode) (sel : String) (l : List Frame) :
    splitFrames mode sel l ⊆ l := by
  unfold splitFrames
  split_ifs
  · exact List.drop_subset 1 l
  · exact List.take_subset 1 l
  · exact fun a h => h
  · exact fun a h => h

theorem splitFrames_eq_self (mode : Mode) (sel : String) (l : List Frame)
    (h1 : sel ≠ "train") (h2 : sel ≠ "val") :
    splitFrames mode sel l = l := by
  unfold splitFrames
  by_cases hm : mode = Mode.colmap
  · rw [if_pos hm, if_neg h1, if_neg h2]
  · rw [if_neg hm]

theorem splitFrames_colmap_train (l : List Frame) :
    splitFrames Mode.colmap "train" l = l.drop 1 := by
  unfold splitFrames
  rw [if_pos rfl, if_pos rfl]

theorem splitFrames_colmap_val (l : List Frame) :
    splitFrames Mode.colmap "val" l = l.take 1 := by
  unfold splitFrames
  rw [if_pos rfl, if_neg (by decide), if_pos rfl]

theorem survivingFrames_of_all_mem {fs : FileSystem} {root : String} {mode : Mode}
    {l : List Frame} (h : ∀ f ∈ l, resolvePath root mode f.file_path ∈ fs.files) :
    survivingFrames fs root mode l = l :=
  List.filter_eq_self.mpr fun f hf => by simpa using h f hf

theorem survivingFrames_of_all_missing {fs : FileSystem} {root : String} {mode : Mode}
    {l : List Frame} (h : ∀ f ∈ l, resolvePath root mode f.file_path ∉ fs.files) :
    survivingFrames fs root mode l = [] :=
  List.filter_eq_nil_iff.mpr fun f hf => by simpa using h f hf

/-- Surviving and missing frames partition the frame list. -/
theorem surviving_add_missing_length (fs : FileSystem) (root : String) (mode : Mode)
    (l : List Frame) :
    (survivingFrames fs root mode l).length +
      (l.filter fun f => decide (resolvePath root mode f.file_path ∉ fs.files)).length =
      l.length := by
  induction l with
  | nil => rfl
  | cons f rest ih =>
    by_cases hf : resolvePath root mode f.file_path ∈ fs.files
    · rw [survivingFrames_cons_mem rest hf]
      simp only [List.filter_cons, List.length_cons]
      rw [if_neg (by simpa using hf)]
      omega
    · rw [survivingFrames_cons_not_mem rest hf]
      simp only [List.filter_cons, List.length_cons]
      rw [if_pos (by simpa using hf)]
      simp only [List.length_cons]
      omega

theorem declaredDims_of_not_both {m : Manifest} (h : ¬(m.h.isSome ∧ m.w.isSome)) :
    declaredDims m = (none, none) := by
  unfold declaredDims
  cases hh : m.h with
  | none => cases m.w <;> rfl
  | some a =>
    cases hw : m.w with
    | none => rfl
    | some b => exact absurd ⟨by rw [hh]; rfl, by rw [hw]; rfl⟩ h

/-- Normalizing with `scale = 1` and zero offset is the identity. -/
theorem nerf_matrix_to_ngp_one_zero (p : Pose) :
    nerf_matrix_to_ngp p 1 zeroOffset = p := by
  funext i j
  unfold nerf_matrix_to_ngp
  split
  · simp [zeroOffset]
  · rfl

/-! ## Claim theorems -/

/-- C2: for every 4×4 pose, scale `s`, and offset `o`, `nerf_matrix_to_ngp`
returns a pose whose translation column equals `t * s + o` (scale before
shift: with zero offset, scaling `s` by `k` scales the output translation
by `k`, and a nonzero offset shifts it by exactly `o`), and whose 3×3
rotation submatrix is unchanged.  Entries are modelled as exact rationals,
on which the source's cast to single-precision float is the identity. -/
theorem nerf_translation_affine_rotation_unchanged (pose : Pose) (scale : ℚ)
    (offset : Fin 3 → ℚ) (i j : Fin 3) (k : ℚ) :
    nerf_matrix_to_ngp pose scale offset i.castSucc 3 =
      pose i.castSucc 3 * scale + offset i ∧
    nerf_matrix_to_ngp pose scale offset i.castSucc j.castSucc =
      pose i.castSucc j.castSucc ∧
    nerf_matrix_to_ngp pose (k * scale) (fun _ => 0) i.castSucc 3 =
      k * nerf_matrix_to_ngp pose scale (fun _ => 0) i.castSucc 3 ∧
    nerf_matrix_to_ngp pose scale offset i.castSucc 3 =
      nerf_matrix_to_ngp pose scale (fun _ => 0) i.castSucc 3 + offset i := by
  have hcond : (Fin.castSucc i).val < 3 ∧ ((3 : Fin 4)).val = 3 := ⟨i.isLt, by decide⟩
  have hcond' : ¬((Fin.castSucc i).val < 3 ∧ ((Fin.castSucc j)).val = 3) := by
    intro h
    exact absurd h.2 (Nat.ne_of_lt j.isLt)
  have hidx : (⟨(Fin.castSucc i).val, hcond.1⟩ : Fin 3) = i := Fin.ext (by simp)
  refine ⟨?_, ?_, ?_, ?_⟩
  · unfold nerf_matrix_to_ngp
    rw [dif_pos hcond, hidx]
  · unfold nerf_matrix_to_ngp
    rw [dif_neg hcond']
  · unfold nerf_matrix_to_ngp
    rw [dif_pos hcond, dif_pos hcond]
    ring
  · unfold nerf_matrix_to_ngp
    rw [dif_pos hcond, dif_pos hcond, hidx]
    ring

/-- C6: a root directory containing neither `transforms.json` nor
`transforms_train.json` makes the loader fail with the configuration
error; when either file exists, schema detection succeeds and selects
COLMAP mode for `transforms.json`, else Blender mode. -/
theorem no_manifest_configuration_error (fs : FileSystem) (root : String) (scale : ℚ)
    (offset : Fin 3 → ℚ) (sel : String) :
    (pathJoin root "transforms.json" ∉ fs.files →
      pathJoin root "transforms_train.json" ∉ fs.files →
      NeRFDataset.load fs root scale offset sel =
        Except.error LoadError.configurationError) ∧
    (pathJoin root "transforms.json" ∈ fs.files →
      detectMode fs root = Except.ok Mode.colmap) ∧
    (pathJoin root "transforms.json" ∉ fs.files →
      pathJoin root "transforms_train.json" ∈ fs.files →
      detectMode fs root = Except.ok Mode.blender) := by
  refine ⟨?_, ?_, ?_⟩
  · intro h1 h2
    unfold NeRFDataset.load detectMode
    rw [if_neg h1, if_neg h2]
    rfl
  · intro h1
    unfold detectMode
    rw [if_pos h1]
  · intro h1 h2
    unfold detectMode
    rw [if_neg h1, if_pos h2]

/-- Witness for C6 at concrete roots: an empty root fails with the
configuration error; a root with only `transforms.json` detects COLMAP;
a root with only `transforms_train.json` detects Blender. -/
theorem no_manifest_configuration_error_witness :
    NeRFDataset.load emptyFs "root" 1 zeroOffset "train" =
      Except.error LoadError.configurationError ∧
    detectMode colmapOnlyFs "root" = Except.ok Mode.colmap ∧
    detectMode blenderOnlyFs "root" = Except.ok Mode.blender :=
  ⟨(no_manifest_configuration_error emptyFs "root" 1 zeroOffset "train").1
      (by decide) (by decide),
   (no_manifest_configuration_error colmapOnlyFs "root" 1 zeroOffset "train").2.1
      (by decide),
   (no_manifest_configuration_error blenderOnlyFs "root" 1 zeroOffset "train").2.2
      (by decide) (by decide)⟩

/-- C8 (code bug): `main.py` declares only the positional `path` argument,
so the options object has no `scale`/`offset` attribute and
`NeRFDataset.__init__` fails at `self.scale = opt.scale` with an
`AttributeError` before any dataset is loaded or visualized, for every
filesystem and root path. -/
theorem main_program_attribute_error (fs : FileSystem) (path : String) :
    (parseArgs path).scale = none ∧ (parseArgs path).offset = none ∧
    mainProgram fs path = Except.error LoadError.attributeError :=
  ⟨rfl, rfl, rfl⟩

/-- C10: for every COLMAP-mode dataset root, constructing the loader with
selector `test` never produces a Dataset: the load always fails, and
whenever the manifest reads successfully with at least two frames (so the
two random frames can be sampled), the specific failure is the
`AttributeError` raised when finalization stacks the never-assigned pose
sequence. -/
theorem colmap_test_never_loads (fs : FileSystem) (root : String) (scale : ℚ)
    (offset : Fin 3 → ℚ)
    (hcj : pathJoin root "transforms.json" ∈ fs.files) :
    (∃ e, NeRFDataset.load fs root scale offset "test" = Except.error e) ∧
    (∀ m, readJson fs (pathJoin root "transforms.json") = Except.ok m →
      2 ≤ m.frames.length →
      NeRFDataset.load fs root scale offset "test" =
        Except.error LoadError.attributeError) := by
  have hmode : detectMode fs root = Except.ok Mode.colmap := by
    unfold detectMode
    rw [if_pos hcj]
  constructor
  · cases hr : readJson fs (pathJoin root "transforms.json") with
    | error e =>
      refine ⟨e, ?_⟩
      unfold NeRFDataset.load
      rw [hmode, ok_bind]
      simp only [assembleManifest]
      rw [hr, error_bind]
    | ok m =>
      by_cases hl : m.frames.length < 2
      · refine ⟨LoadError.valueError, ?_⟩
        unfold NeRFDataset.load
        rw [hmode, ok_bind]
        simp only [assembleManifest]
        rw [hr, ok_bind, if_pos (by simp), if_pos hl]
      · refine ⟨LoadError.attributeError, ?_⟩
        unfold NeRFDataset.load
        rw [hmode, ok_bind]
        simp only [assembleManifest]
        rw [hr, ok_bind, if_pos (by simp), if_neg hl]
  · intro m hm hlen
    unfold NeRFDataset.load
    rw [hmode, ok_bind]
    simp only [assembleManifest]
    rw [hm, ok_bind, if_pos (by simp), if_neg (by omega)]

/-- Witness for C10: on a concrete two-frame COLMAP dataset with every
image present, loading the `test` split fails with the `AttributeError`. -/
theorem colmap_test_never_loads_witness :
    NeRFDataset.load c4Fs "r" 1 zeroOffset "test" =
      Except.error LoadError.attributeError :=
  (colmap_test_never_loads c4Fs "r" 1 zeroOffset (by decide)).2 c4Manifest
    (by decide) (by decide)

/-- C5 (code bug): in Blender mode, for a selector other than `all` and
`trainval` the loader opens `transform_{selector}.json` — without the
`s` — not the `transforms_{selector}.json` that schema detection itself
checked for; with selector `train`, a root holding `transforms_train.json`
but no `transform_train.json` therefore fails with `FileNotFoundError`. -/
theorem blender_split_filename_typo (fs : FileSystem) (root : String) (scale : ℚ)
    (offset : Fin 3 → ℚ)
    (h1 : pathJoin root "transforms.json" ∉ fs.files)
    (h2 : pathJoin root "transforms_train.json" ∈ fs.files)
    (h3 : pathJoin root "transform_train.json" ∉ fs.files) :
    blenderManifestFilename "train" = "transform_train.json" ∧
    blenderManifestFilename "train" ≠ "transforms_train.json" ∧
    NeRFDataset.load fs root scale offset "train" =
      Except.error LoadError.fileNotFoundError := by
  refine ⟨by decide, by decide, ?_⟩
  have hmode : detectMode fs root = Except.ok Mode.blender := by
    unfold detectMode
    rw [if_neg h1, if_pos h2]
  unfold NeRFDataset.load
  rw [hmode, ok_bind]
  have hman : assembleManifest fs root "train" Mode.blender =
      Except.error LoadError.fileNotFoundError := by
    simp only [assembleManifest]
    rw [if_neg (by decide : ¬("train" : String) = "all"),
      if_neg (by decide : ¬("train" : String) = "trainval")]
    unfold readJson
    rw [if_neg (by exact h3)]
  rw [hman, error_bind]

/-- Witness for C5's failing input: a concrete Blender root holding only
`transforms_train.json` fails to load its `train` split. -/
theorem blender_split_filename_typo_witness :
    blenderManifestFilename "train" = "transform_train.json" ∧
    blenderManifestFilename "train" ≠ "transforms_train.json" ∧
    NeRFDataset.load blenderOnlyFs "root" 1 zeroOffset "train" =
      Except.error LoadError.fileNotFoundError :=
  blender_split_filename_typo blenderOnlyFs "root" 1 zeroOffset
    (by decide) (by decide) (by decide)

/-- C7: a manifest whose `frames` list is empty, or whose every frame's
referenced image is missing from disk, makes the load fail with the
`DataError` (stacking an empty sequence), for every mode/selector
combination that reaches the per-frame loop. -/
theorem zero_surviving_frames_data_error (fs : FileSystem) (root : String) (scale : ℚ)
    (offset : Fin 3 → ℚ) (sel : String) (mode : Mode) (m : Manifest)
    (hmode : detectMode fs root = Except.ok mode)
    (hman : assembleManifest fs root sel mode = Except.ok m)
    (hnt : ¬(mode = Mode.colmap ∧ sel = "test"))
    (hzero : m.frames = [] ∨
      ∀ f ∈ m.frames, resolvePath root mode f.file_path ∉ fs.files) :
    NeRFDataset.load fs root scale offset sel = Except.error LoadError.dataError := by
  have hsurv : survivingFrames fs root mode (splitFrames mode sel m.frames) = [] := by
    rcases hzero with hnil | hmiss
    · rw [hnil, splitFrames_nil]
      rfl
    · exact survivingFrames_of_all_missing
        (fun f hf => hmiss f (splitFrames_subset mode sel m.frames hf))
  have hdec : ∀ f ∈ splitFrames mode sel m.frames,
      resolvePath root mode f.file_path ∈ fs.files →
      (fs.image (resolvePath root mode f.file_path)).isSome := by
    intro f hf hmem
    rcases hzero with hnil | hmiss
    · rw [hnil, splitFrames_nil] at hf
      exact absurd hf (List.not_mem_nil f)
    · exact absurd hmem (hmiss f (splitFrames_subset mode sel m.frames hf))
  obtain ⟨st', hfold, hposes, _, _, _⟩ :=
    processFrames_spec fs root mode scale offset (splitFrames mode sel m.frames)
      ⟨(declaredDims m).1, (declaredDims m).2, [], []⟩ hdec
  rw [load_eq fs root scale offset sel mode m hmode hman hnt, hfold, ok_bind]
  rw [hsurv] at hposes
  simp only [List.map_nil, List.nil_append, List.append_nil] at hposes
  rw [if_pos hposes]

/-- Witness for C7: a concrete COLMAP root whose manifest has an empty
`frames` list fails with the `DataError`, and a concrete one-frame
manifest whose only image is missing fails the same way. -/
theorem zero_surviving_frames_data_error_witness :
    NeRFDataset.load e7Fs "r" 1 zeroOffset "all" = Except.error LoadError.dataError ∧
    NeRFDataset.load c1Fs "r" 1 zeroOffset "all" = Except.error LoadError.dataError :=
  ⟨zero_surviving_frames_data_error e7Fs "r" 1 zeroOffset "all" Mode.colmap
      { h := none, w := none, frames := [] }
      (by decide) (by decide) (by decide) (Or.inl rfl),
   zero_surviving_frames_data_error c1Fs "r" 1 zeroOffset "all" Mode.colmap
      c1Manifest (by decide) (by decide) (by decide) (Or.inr (by decide))⟩

theorem map_ok {α β : Type} (a : α) (f : α → β) :
    (Except.ok a : Except LoadError α).map f = Except.ok (f a) := rfl

/-- C1 counterexample: for the one-frame manifest `c1Manifest` whose only
referenced image has been removed from disk (the removed subset is all of
the N = 1 referenced files), loading does not produce `N - |S| = 0` poses
and `0` images as the claim requires: it fails with the `DataError`. -/
theorem frames_skip_total_removal_fails :
    c1Manifest.frames.length = 1 ∧
    (∀ f ∈ c1Manifest.frames, resolvePath "r" Mode.colmap f.file_path ∉ c1Fs.files) ∧
    NeRFDataset.load c1Fs "r" 1 zeroOffset "all" = Except.error LoadError.dataError := by
  decide

/-- C1 (amended): for every manifest whose frames all reference existing
images, loading yields exactly one pose and one image per frame, aligned
by index; removing a subset of the referenced images only skips the
affected frames, leaving the surviving poses and images paired in the
original relative order and reducing the count by exactly the number of
missing files — provided at least one frame survives (removing all of
them makes the load fail with a `DataError` instead, see the
counterexample). -/
theorem frames_skip_alignment (fs : FileSystem) (root : String) (scale : ℚ)
    (offset : Fin 3 → ℚ) (sel : String) (mode : Mode) (m : Manifest)
    (hmode : detectMode fs root = Except.ok mode)
    (hman : assembleManifest fs root sel mode = Except.ok m)
    (hsel1 : sel ≠ "train") (hsel2 : sel ≠ "val") (hsel3 : sel ≠ "test")
    (hdec : ∀ f ∈ m.frames, resolvePath root mode f.file_path ∈ fs.files →
      (fs.image (resolvePath root mode f.file_path)).isSome)
    (hne : survivingFrames fs root mode m.frames ≠ []) :
    ∃ d, NeRFDataset.load fs root scale offset sel = Except.ok d ∧
      d.poses = (survivingFrames fs root mode m.frames).map
        (fun f => nerf_matrix_to_ngp f.transform_matrix scale offset) ∧
      List.Forall₂ (fun f img => img.src = resolvePath root mode f.file_path)
        (survivingFrames fs root mode m.frames) d.images ∧
      d.poses.length = m.frames.length -
        (m.frames.filter fun f =>
          decide (resolvePath root mode f.file_path ∉ fs.files)).length := by
  have hsplit : splitFrames mode sel m.frames = m.frames :=
    splitFrames_eq_self mode sel m.frames hsel1 hsel2
  have hnt : ¬(mode = Mode.colmap ∧ sel = "test") := fun h => hsel3 h.2
  obtain ⟨d, hload, hposes, hfa, _, _⟩ :=
    load_ok fs root scale offset sel mode m hmode hman hnt
      (by rw [hsplit]; exact hdec) (by rw [hsplit]; exact hne)
  rw [hsplit] at hposes hfa
  refine ⟨d, hload, hposes, hfa, ?_⟩
  rw [hposes, List.length_map]
  have := surviving_add_missing_length fs root mode m.frames
  omega

/-- Witness for C1 on `w1Fs`: three frames, the middle image removed; the
load succeeds with the two surviving frames' poses in order, and the
count is `3 - 1 = 2`. -/
theorem frames_skip_alignment_witness :
    (NeRFDataset.load w1Fs "r" 1 zeroOffset "all").map (fun d => d.poses) =
      Except.ok ((survivingFrames w1Fs "r" Mode.colmap w1Manifest.frames).map
        (fun f => nerf_matrix_to_ngp f.transform_matrix 1 zeroOffset)) ∧
    (NeRFDataset.load w1Fs "r" 1 zeroOffset "all").map (fun d => d.poses.length) =
      Except.ok 2 := by
  obtain ⟨d, hload, hposes, hfa, hcount⟩ :=
    frames_skip_alignment w1Fs "r" 1 zeroOffset "all" Mode.colmap w1Manifest
      (by decide) (by decide) (by decide) (by decide) (by decide) (by decide) (by decide)
  rw [hload, map_ok, map_ok, hposes]
  refine ⟨rfl, ?_⟩
  rw [List.length_map]
  decide

/-- C4: for a COLMAP-mode manifest (with all images available), selector
`train` processes exactly the manifest's frames without the first one,
selector `val` exactly the first frame, and every other non-`test`
selector all frames unmodified. -/
theorem colmap_split_selectors (fs : FileSystem) (root : String) (scale : ℚ)
    (offset : Fin 3 → ℚ) (m : Manifest)
    (hcj : pathJoin root "transforms.json" ∈ fs.files)
    (hman : readJson fs (pathJoin root "transforms.json") = Except.ok m)
    (hall : ∀ f ∈ m.frames, resolvePath root Mode.colmap f.file_path ∈ fs.files ∧
      (fs.image (resolvePath root Mode.colmap f.file_path)).isSome)
    (hlen : 2 ≤ m.frames.length) :
    (∃ d, NeRFDataset.load fs root scale offset "train" = Except.ok d ∧
      d.poses = (m.frames.drop 1).map
        (fun f => nerf_matrix_to_ngp f.transform_matrix scale offset)) ∧
    (∃ d, NeRFDataset.load fs root scale offset "val" = Except.ok d ∧
      d.poses = (m.frames.take 1).map
        (fun f => nerf_matrix_to_ngp f.transform_matrix scale offset)) ∧
    (∀ sel, sel ≠ "test" → sel ≠ "train" → sel ≠ "val" →
      ∃ d, NeRFDataset.load fs root scale offset sel = Except.ok d ∧
        d.poses = m.frames.map
          (fun f => nerf_matrix_to_ngp f.transform_matrix scale offset)) := by
  have hmode : detectMode fs root = Except.ok Mode.colmap := by
    unfold detectMode
    rw [if_pos hcj]
  have hmem : ∀ f ∈ m.frames, resolvePath root Mode.colmap f.file_path ∈ fs.files :=
    fun f hf => (hall f hf).1
  refine ⟨?_, ?_, ?_⟩
  · obtain ⟨d, hload, hposes, _, _, _⟩ :=
      load_ok fs root scale offset "train" Mode.colmap m hmode hman
        (fun h => absurd h.2 (by decide))
        (fun f hf _ => (hall f (splitFrames_subset Mode.colmap "train" m.frames hf)).2)
        (by
          rw [splitFrames_colmap_train,
            survivingFrames_of_all_mem (fun f hf => hmem f (List.drop_subset 1 m.frames hf))]
          exact List.length_pos.mp (by rw [List.length_drop]; omega))
    rw [splitFrames_colmap_train,
      survivingFrames_of_all_mem (fun f hf => hmem f (List.drop_subset 1 m.frames hf))]
      at hposes
    exact ⟨d, hload, hposes⟩
  · obtain ⟨d, hload, hposes, _, _, _⟩ :=
      load_ok fs root scale offset "val" Mode.colmap m hmode hman
        (fun h => absurd h.2 (by decide))
        (fun f hf _ => (hall f (splitFrames_subset Mode.colmap "val" m.frames hf)).2)
        (by
          rw [splitFrames_colmap_val,
            survivingFrames_of_all_mem (fun f hf => hmem f (List.take_subset 1 m.frames hf))]
          exact List.length_pos.mp (by rw [List.length_take]; omega))
    rw [splitFrames_colmap_val,
      survivingFrames_of_all_mem (fun f hf => hmem f (List.take_subset 1 m.frames hf))]
      at hposes
    exact ⟨d, hload, hposes⟩
  · intro sel hs3 hs1 hs2
    have hsplit : splitFrames Mode.colmap sel m.frames = m.frames :=
      splitFrames_eq_self Mode.colmap sel m.frames hs1 hs2
    obtain ⟨d, hload, hposes, _, _, _⟩ :=
      load_ok fs root scale offset sel Mode.colmap m hmode hman
        (fun h => hs3 h.2)
        (by rw [hsplit]; exact fun f hf _ => (hall f hf).2)
        (by
          rw [hsplit, survivingFrames_of_all_mem hmem]
          exact List.length_pos.mp (by omega))
    rw [hsplit, survivingFrames_of_all_mem hmem] at hposes
    exact ⟨d, hload, hposes⟩

/-- Witness for C4 on the concrete two-frame COLMAP dataset `c4Fs`:
`train` keeps only the second frame's pose, `val` only the first's, and
selector `all` both, in manifest order. -/
theorem colmap_split_selectors_witness :
    (NeRFDataset.load c4Fs "r" 1 zeroOffset "train").map (fun d => d.poses) =
      Except.ok ((c4Manifest.frames.drop 1).map
        (fun f => nerf_matrix_to_ngp f.transform_matrix 1 zeroOffset)) ∧
    (NeRFDataset.load c4Fs "r" 1 zeroOffset "val").map (fun d => d.poses) =
      Except.ok ((c4Manifest.frames.take 1).map
        (fun f => nerf_matrix_to_ngp f.transform_matrix 1 zeroOffset)) ∧
    (NeRFDataset.load c4Fs "r" 1 zeroOffset "all").map (fun d => d.poses) =
      Except.ok (c4Manifest.frames.map
        (fun f => nerf_matrix_to_ngp f.transform_matrix 1 zeroOffset)) := by
  obtain ⟨⟨d1, h1, hp1⟩, ⟨d2, h2, hp2⟩, hrest⟩ :=
    colmap_split_selectors c4Fs "r" 1 zeroOffset c4Manifest
      (by decide) (by decide) (by decide) (by decide)
  obtain ⟨d3, h3, hp3⟩ := hrest "all" (by decide) (by decide) (by decide)
  rw [h1, h2, h3, map_ok, map_ok, map_ok, hp1, hp2, hp3]
  exact ⟨rfl, rfl, rfl⟩

/-- C9: the manifest-declared dimensions become the target dimensions
only when both `h` and `w` keys are present; when not both are present
(in particular when exactly one is), the declared value is ignored and
both target dimensions are inferred from the first surviving frame's
decoded image, which is itself stored colour-converted at its native
size — never resized. -/
theorem declared_dims_both_or_inferred (fs : FileSystem) (root : String) (scale : ℚ)
    (offset : Fin 3 → ℚ) (sel : String) (mode : Mode) (m : Manifest)
    (hmode : detectMode fs root = Except.ok mode)
    (hman : assembleManifest fs root sel mode = Except.ok m)
    (hnt : ¬(mode = Mode.colmap ∧ sel = "test"))
    (hdec : ∀ f ∈ splitFrames mode sel m.frames,
      resolvePath root mode f.file_path ∈ fs.files →
      (fs.image (resolvePath root mode f.file_path)).isSome) :
    (∀ h w, m.h = some h → m.w = some w →
      survivingFrames fs root mode (splitFrames mode sel m.frames) ≠ [] →
      ∃ d, NeRFDataset.load fs root scale offset sel = Except.ok d ∧
        d.H = some h ∧ d.W = some w) ∧
    (¬(m.h.isSome ∧ m.w.isSome) →
      ∀ f₀ rest, survivingFrames fs root mode (splitFrames mode sel m.frames) = f₀ :: rest →
      ∀ raw, fs.image (resolvePath root mode f₀.file_path) = some raw →
      ∃ d, NeRFDataset.load fs root scale offset sel = Except.ok d ∧
        d.H = some raw.height ∧ d.W = some raw.width ∧
        ∃ tail, d.images =
          { height := raw.height, width := raw.width, channels := raw.channels,
            rgbOrder := true, resized := false,
            src := resolvePath root mode f₀.file_path } :: tail) := by
  constructor
  · intro h w hh hw hne
    obtain ⟨d, hload, _, _, hdims, _⟩ :=
      load_ok fs root scale offset sel mode m hmode hman hnt hdec hne
    obtain ⟨hH, hW⟩ := hdims h w (by unfold declaredDims; rw [hh, hw])
    exact ⟨d, hload, hH, hW⟩
  · intro hnb f₀ rest hsurv raw hraw
    obtain ⟨d, hload, _, _, _, hinf⟩ :=
      load_ok fs root scale offset sel mode m hmode hman hnt hdec
        (by rw [hsurv]; exact List.cons_ne_nil f₀ rest)
    have hdd := declaredDims_of_not_both hnb
    obtain ⟨hH, hW, tail, htail⟩ :=
      hinf f₀ rest (by rw [hdd]) hsurv
        { height := raw.height, width := raw.width, channels := raw.channels,
          rgbOrder := false, resized := false,
          src := resolvePath root mode f₀.file_path }
        (by simp [decodeImage, hraw])
    exact ⟨d, hload, hH, hW, tail, htail⟩

/-- Witness for C9: on `c9aFs` (both `h = 5` and `w = 6` declared) the
loaded target dimensions are the declared ones; on `c9bFs` (`h = 7`
declared, `w` absent) the declared `h` is ignored and both dimensions
come from the first decoded image (2×3), which is stored un-resized. -/
theorem declared_dims_both_or_inferred_witness :
    (NeRFDataset.load c9aFs "r" 1 zeroOffset "all").map (fun d => (d.H, d.W)) =
      Except.ok (some 5, some 6) ∧
    (NeRFDataset.load c9bFs "r" 1 zeroOffset "all").map
        (fun d => (d.H, d.W, d.images.head?)) =
      Except.ok (some 2, some 3, some
        { height := 2, width := 3, channels := 3, rgbOrder := true,
          resized := false, src := "r/a.png" }) := by
  constructor
  · obtain ⟨d, hload, hH, hW⟩ :=
      (declared_dims_both_or_inferred c9aFs "r" 1 zeroOffset "all" Mode.colmap
        c9aManifest (by decide) (by decide) (by decide) (by decide)).1 5 6
        rfl rfl (by decide)
    rw [hload, map_ok, hH, hW]
  · obtain ⟨d, hload, hH, hW, tail, htail⟩ :=
      (declared_dims_both_or_inferred c9bFs "r" 1 zeroOffset "all" Mode.colmap
        c9bManifest (by decide) (by decide) (by decide) (by decide)).2 (by decide)
        ⟨"a.png", mkPose 1 0 0⟩ [] (by decide) ⟨2, 3, 3⟩ (by decide)
    rw [hload, map_ok, hH, hW, htail]
    rfl

/-- C3: for every successfully loaded dataset, the radius — computed by
the source as `poses[:, :3, 3].norm(dim=-1).mean(0)` over the loaded,
normalized poses — equals the arithmetic mean of the Euclidean norms
(`EuclideanSpace` norm over `ℝ`) of the poses' translation vectors. -/
theorem euclidean_norm_of_translation (p : Pose) :
    ‖(WithLp.equiv 2 (Fin 3 → ℝ)).symm (fun i => ((translation p i : ℚ) : ℝ))‖ =
      Real.sqrt (((translation p 0 : ℚ) : ℝ) ^ 2 + ((translation p 1 : ℚ) : ℝ) ^ 2
        + ((translation p 2 : ℚ) : ℝ) ^ 2) := by
  rw [EuclideanSpace.norm_eq, Fin.sum_univ_three]
  simp only [WithLp.equiv_symm_pi_apply, Real.norm_eq_abs, sq_abs]

theorem radius_is_mean_translation_norm (fs : FileSystem) (root : String) (scale : ℚ)
    (offset : Fin 3 → ℚ) (sel : String) (d : Dataset)
    (_hload : NeRFDataset.load fs root scale offset sel = Except.ok d)
    (_hne : d.poses ≠ []) :
    datasetRadius d.poses =
      (d.poses.map fun p =>
        ‖(WithLp.equiv 2 (Fin 3 → ℝ)).symm
          (fun i => ((translation p i : ℚ) : ℝ))‖).sum /
        (d.poses.length : ℝ) := by
  unfold datasetRadius
  rw [List.map_congr_left
    (fun p _ => (euclidean_norm_of_translation p).symm)]

/-- Witness for C3: the dataset loaded from `radFs` (translations
`(3,4,0)` and `(0,0,5)` under `scale = 1`, `offset = 0`) has radius
`(5 + 5) / 2 = 5`. -/
theorem radius_is_mean_translation_norm_witness :
    NeRFDataset.load radFs "root" 1 zeroOffset "all" = Except.ok radDataset ∧
    datasetRadius radDataset.poses = 5 := by
  have hload : NeRFDataset.load radFs "root" 1 zeroOffset "all" =
      Except.ok radDataset := rfl
  refine ⟨hload, ?_⟩
  have h := radius_is_mean_translation_norm radFs "root" 1 zeroOffset "all"
    radDataset hload (by decide)
  rw [h]
  have hposes : radDataset.poses = [mkPose 3 4 0, mkPose 0 0 5] := by
    show [nerf_matrix_to_ngp (mkPose 3 4 0) 1 zeroOffset,
      nerf_matrix_to_ngp (mkPose 0 0 5) 1 zeroOffset] = _
    rw [nerf_matrix_to_ngp_one_zero, nerf_matrix_to_ngp_one_zero]
  rw [hposes]
  simp only [List.map_cons, List.map_nil, List.sum_cons, List.sum_nil,
    List.length_cons, List.length_nil]
  rw [euclidean_norm_of_translation, euclidean_norm_of_translation]
  rw [show (translation (mkPose 3 4 0) 0 : ℚ) = 3 from rfl,
    show (translation (mkPose 3 4 0) 1 : ℚ) = 4 from rfl,
    show (translation (mkPose 3 4 0) 2 : ℚ) = 0 from rfl,
    show (translation (mkPose 0 0 5) 0 : ℚ) = 0 from rfl,
    show (translation (mkPose 0 0 5) 1 : ℚ) = 0 from rfl,
    show (translation (mkPose 0 0 5) 2 : ℚ) = 5 from rfl]
  rw [show (((3 : ℚ) : ℝ)) ^ 2 + (((4 : ℚ) : ℝ)) ^ 2 + (((0 : ℚ) : ℝ)) ^ 2 = 5 ^ 2
    by norm_num]
  rw [show (((0 : ℚ) : ℝ)) ^ 2 + (((0 : ℚ) : ℝ)) ^ 2 + (((5 : ℚ) : ℝ)) ^ 2 = 5 ^ 2
    by norm_num]
  rw [Real.sqrt_sq (by norm_num : (0 : ℝ) ≤ 5)]
  norm_num
